import Mathlib

/-!
Verification of the metrics-aggregation core of the NCCER mock dashboard
(`mock_dash.py`).

The dashboard's only non-trivial logic is the metrics engine: `load_data`
builds a fixed table of per-employee records (with a derived
`Reached_12mo` column), and `calculate_metrics` filters the table by a
minimum-retention threshold, partitions it into a Training group and a
"No Training" control group, and aggregates retention rates, means and
cost-per-retained-employee figures into a dictionary of `MetricComparison`
values, returning `None` when either group is empty.

Python floats are modelled as rationals (ℚ); every numeric literal in the
source is decimal and all arithmetic performed on the embedded dataset is
exact, so the rational model agrees with the float computation on every
value the claims mention.  Pandas dataframes are modelled as lists of
records; boolean-column sums become counts; `df[mask]` becomes
`List.filter`.  The Python `None` sentinel becomes `Option.none`.
-/

/-- `RETENTION_THRESHOLD = 12.0` from `mock_dash.py`. -/
def RETENTION_THRESHOLD : ℚ := 12.0

/-- `COST_PER_HIRE = 1750` from `mock_dash.py`. -/
def COST_PER_HIRE : ℚ := 1750

/-- `TRAINING_COST_PER_PERSON = 300` from `mock_dash.py`. -/
def TRAINING_COST_PER_PERSON : ℚ := 300

/-- One row of the dataframe built by `load_data`: the four stored columns
plus the stored derived column `Reached_12mo` (added on line 98 of
`mock_dash.py`).  The flag is a stored field, exactly as in the dataframe;
`load_data` computes it from `Months_Retained`, but `calculate_metrics`
reads whatever is stored. -/
structure EmployeeRecord where
  company : String
  months_retained : ℚ
  productivity_rating : ℚ
  absenteeism_days : ℕ
  reached_12mo : Bool
deriving Repr, DecidableEq

/-- The `MetricComparison` dataclass of `mock_dash.py`. -/
structure MetricComparison where
  training_value : ℚ
  control_value : ℚ
deriving Repr, DecidableEq

/-- The `difference` property: `training_value - control_value`. -/
def MetricComparison.difference (m : MetricComparison) : ℚ :=
  m.training_value - m.control_value

/-- The `percent_change` property:
`(self.difference / self.control_value * 100) if self.control_value != 0 else 0`. -/
def MetricComparison.percent_change (m : MetricComparison) : ℚ :=
  if m.control_value ≠ 0 then m.difference / m.control_value * 100 else 0

/-- The `Company` column literal of `load_data`:
`['Training'] * 30 + ['No Training'] * 30`. -/
def company_col : List String :=
  List.replicate 30 "Training" ++ List.replicate 30 "No Training"

/-- The `Months_Retained` column literal of `load_data`. -/
def months_retained_col : List ℚ :=
  List.replicate 21 12.0 ++ [11.8, 11.5, 10.9, 10.2, 9.8, 9.4, 8.7, 7.6, 6.9] ++
  List.replicate 9 12.0 ++ [11.2, 10.8, 9.5, 8.9, 8.1, 7.4, 6.8, 6.2, 5.5, 4.9,
    4.3, 3.8, 3.2, 2.7, 2.1, 1.8, 7.7, 8.4, 9.1, 10.3, 6.6]

/-- The `Productivity_Rating` column literal of `load_data`. -/
def productivity_rating_col : List ℚ :=
  [4.7, 4.0, 5.0, 3.8, 4.6, 5.0, 4.0, 4.2, 4.4, 4.2, 3.8, 4.4, 4.0, 4.6, 4.0,
   5.0, 4.1, 4.3, 4.7, 3.9, 4.5, 4.9, 3.8, 4.5, 4.5, 4.7, 3.9, 3.9, 4.6, 4.5,
   3.5, 3.5, 2.9, 3.4, 3.5, 2.9, 4.4, 3.6, 2.6, 3.7, 2.7, 3.8, 4.0, 2.8, 3.9,
   3.5, 3.8, 4.4, 3.2, 2.8, 2.8, 2.8, 3.3, 3.5, 3.5, 3.8, 3.3, 4.2, 3.1, 4.9]

/-- The `Absenteeism_Days` column literal of `load_data`. -/
def absenteeism_days_col : List ℕ :=
  [4, 1, 1, 4, 3, 4, 4, 3, 1, 0, 2, 5, 3, 1, 3, 4, 1, 3, 3, 1,
   4, 4, 5, 5, 0, 1, 4, 4, 4, 11,
   12, 14, 13, 12, 8, 13, 6, 9, 8, 10, 19, 2, 12, 3, 8, 14, 10, 5, 7, 12,
   7, 10, 10, 7, 18, 12, 1, 10, 7, 13]

/-- `load_data` of `mock_dash.py`: assemble the four column literals into
rows and add the derived column
`df['Reached_12mo'] = df['Months_Retained'] >= RETENTION_THRESHOLD`. -/
def load_data : List EmployeeRecord :=
  (List.zip company_col (List.zip months_retained_col
      (List.zip productivity_rating_col absenteeism_days_col))).map
    (fun x =>
      { company := x.1
        months_retained := x.2.1
        productivity_rating := x.2.2.1
        absenteeism_days := x.2.2.2
        reached_12mo := decide (x.2.1 ≥ RETENTION_THRESHOLD) })

/-- The filter step of `calculate_metrics`:
`if min_retention > 0: df = df[df['Months_Retained'] >= min_retention]`. -/
def filter_by_retention (df : List EmployeeRecord) (min_retention : ℚ) :
    List EmployeeRecord :=
  if min_retention > 0 then
    df.filter (fun r => decide (r.months_retained ≥ min_retention))
  else df

/-- The partition step `training_df = df[df['Company'] == 'Training']`. -/
def training_rows (df : List EmployeeRecord) : List EmployeeRecord :=
  df.filter (fun r => r.company == "Training")

/-- The partition step `control_df = df[df['Company'] == 'No Training']`. -/
def control_rows (df : List EmployeeRecord) : List EmployeeRecord :=
  df.filter (fun r => r.company == "No Training")

/-- `df['Reached_12mo'].sum()`: summing the stored boolean column counts the
`True` entries. -/
def stayed_count (rows : List EmployeeRecord) : ℕ :=
  (rows.filter (fun r => r.reached_12mo)).length

/-- Pandas `Series.mean()` over a projected column: sum divided by length. -/
def mean_of (f : EmployeeRecord → ℚ) (rows : List EmployeeRecord) : ℚ :=
  (rows.map f).sum / rows.length

/-- The dictionary returned by `calculate_metrics` on success, one field per
key. -/
structure Metrics where
  retention : MetricComparison
  productivity : MetricComparison
  absenteeism : MetricComparison
  training_stayed : ℕ
  control_stayed : ℕ
  training_total : ℕ
  control_total : ℕ
  training_cost_per_retained : ℚ
  control_cost_per_retained : ℚ
deriving Repr, DecidableEq

/-- `calculate_metrics(df, min_retention=0)` of `mock_dash.py`: filter,
partition, guard against an empty group (returning `None`), then aggregate
retention rates, means and cost-per-retained figures. -/
def calculate_metrics (df : List EmployeeRecord) (min_retention : ℚ) :
    Option Metrics :=
  let df2 := filter_by_retention df min_retention
  let training_df := training_rows df2
  let control_df := control_rows df2
  if training_df.length = 0 ∨ control_df.length = 0 then none
  else
    let retention_training : ℚ :=
      (stayed_count training_df : ℚ) / training_df.length * 100
    let retention_control : ℚ :=
      (stayed_count control_df : ℚ) / control_df.length * 100
    let training_stayed := stayed_count training_df
    let control_stayed := stayed_count control_df
    let training_total_cost : ℚ :=
      (training_df.length : ℚ) * COST_PER_HIRE +
        (training_df.length : ℚ) * TRAINING_COST_PER_PERSON
    let control_total_cost : ℚ := (control_df.length : ℚ) * COST_PER_HIRE
    let training_cost_per_retained : ℚ :=
      if training_stayed > 0 then training_total_cost / training_stayed else 0
    let control_cost_per_retained : ℚ :=
      if control_stayed > 0 then control_total_cost / control_stayed else 0
    some
      { retention := ⟨retention_training, retention_control⟩
        productivity := ⟨mean_of (fun r => r.productivity_rating) training_df,
                         mean_of (fun r => r.productivity_rating) control_df⟩
        absenteeism := ⟨mean_of (fun r => (r.absenteeism_days : ℚ)) training_df,
                        mean_of (fun r => (r.absenteeism_days : ℚ)) control_df⟩
        training_stayed := training_stayed
        control_stayed := control_stayed
        training_total := training_df.length
        control_total := control_df.length
        training_cost_per_retained := training_cost_per_retained
        control_cost_per_retained := control_cost_per_retained }

/-! ### Concrete datasets and their expected metrics -/

/-- A two-record synthetic table: one Training hire retained past the
threshold, one control hire who left early (stored flag consistent). -/
def demo_df : List EmployeeRecord :=
  [⟨"Training", 12, 4, 1, true⟩, ⟨"No Training", 5, 3, 2, false⟩]

/-- The metrics `calculate_metrics` produces on `demo_df` with threshold 0. -/
def demo_metrics : Metrics :=
  { retention := ⟨100, 0⟩
    productivity := ⟨4, 3⟩
    absenteeism := ⟨1, 2⟩
    training_stayed := 1
    control_stayed := 0
    training_total := 1
    control_total := 1
    training_cost_per_retained := 2050
    control_cost_per_retained := 0 }

/-- The metrics `calculate_metrics` produces on the embedded dataset with
threshold 0: 21 of 30 Training records and 9 of 30 control records reach
the 12-month mark, the productivity means are 4.35 and 3.47, and the
cost-per-retained figures are `61500/21` and `52500/9`. -/
def load_data_metrics : Metrics :=
  { retention := ⟨70, 30⟩
    productivity := ⟨87/20, 347/100⟩
    absenteeism := ⟨31/10, 146/15⟩
    training_stayed := 21
    control_stayed := 9
    training_total := 30
    control_total := 30
    training_cost_per_retained := 20500/7
    control_cost_per_retained := 1750 * 30 / 9 }

/-- The metrics `calculate_metrics` produces on the embedded dataset with
threshold 12: only the 21 + 9 records at exactly 12.0 months survive the
filter, so both retention rates are 100. -/
def threshold12_metrics : Metrics :=
  { retention := ⟨100, 100⟩
    productivity := ⟨152/35, 101/30⟩
    absenteeism := ⟨55/21, 95/9⟩
    training_stayed := 21
    control_stayed := 9
    training_total := 21
    control_total := 9
    training_cost_per_retained := 2050
    control_cost_per_retained := 1750 }

/-! ### Evaluation helpers

Rational arithmetic does not reduce in the kernel, so concrete runs of the
pipeline are evaluated by `simp`/`norm_num` with the conditional rewrites
below (their side conditions are literal comparisons that `norm_num`
discharges). -/

theorem decide_rat_ge_true {a b : ℚ} (h : b ≤ a) : decide (a ≥ b) = true :=
  decide_eq_true h

theorem decide_rat_ge_false {a b : ℚ} (h : a < b) : decide (a ≥ b) = false :=
  decide_eq_false (not_le.mpr h)

theorem beq_training_training : ("Training" == "Training") = true := rfl

theorem beq_noTraining_training : ("No Training" == "Training") = false := rfl

theorem beq_training_noTraining : ("Training" == "No Training") = false := rfl

theorem beq_noTraining_noTraining : ("No Training" == "No Training") = true := rfl

/-! ### Evaluation of `calculate_metrics` on `demo_df` -/

theorem calculate_metrics_demo : calculate_metrics demo_df 0 = some demo_metrics := by
  norm_num [calculate_metrics, filter_by_retention, training_rows, control_rows,
    stayed_count, mean_of, demo_df, demo_metrics, COST_PER_HIRE,
    TRAINING_COST_PER_PERSON, List.filter, beq_training_training,
    beq_noTraining_training, beq_training_noTraining, beq_noTraining_noTraining]

/-! ### Sublist structure of the retention filter -/

theorem filter_by_retention_sublist (df : List EmployeeRecord) {t1 t2 : ℚ}
    (h : t1 ≤ t2) :
    (filter_by_retention df t2).Sublist (filter_by_retention df t1) := by
  unfold filter_by_retention
  by_cases h2 : t2 > 0
  · rw [if_pos h2]
    by_cases h1 : t1 > 0
    · rw [if_pos h1]
      refine List.monotone_filter_right df (fun r hr => ?_)
      exact decide_eq_true (le_trans h (of_decide_eq_true hr))
    · rw [if_neg h1]
      exact List.filter_sublist df
  · rw [if_neg h2, if_neg (fun h1 => h2 (lt_of_lt_of_le h1 h))]

/-- C1: if either cohort group is empty after filtering, `calculate_metrics`
returns the `NoData` sentinel (`none`) rather than a metrics value. -/
theorem calculate_metrics_empty_group_none (df : List EmployeeRecord) (t : ℚ)
    (h : (training_rows (filter_by_retention df t)).length = 0 ∨
         (control_rows (filter_by_retention df t)).length = 0) :
    calculate_metrics df t = none := by
  simp only [calculate_metrics]
  rw [if_pos h]

theorem calculate_metrics_empty_group_none_witness :
    ((training_rows (filter_by_retention [] 0)).length = 0 ∨
      (control_rows (filter_by_retention [] 0)).length = 0) ∧
    calculate_metrics [] 0 = none :=
  ⟨Or.inl (by simp [training_rows, filter_by_retention]),
   calculate_metrics_empty_group_none [] 0
     (Or.inl (by simp [training_rows, filter_by_retention]))⟩

/-- C2: in every successful `calculate_metrics` result, each group's
cost-per-retained figure equals the group's total cost divided by its
retained count when that count is positive, and is exactly 0 when the
retained count is 0. -/
theorem cost_per_retained_zero_guard (df : List EmployeeRecord) (t : ℚ)
    (m : Metrics) (h : calculate_metrics df t = some m) :
    (m.training_cost_per_retained =
      if 0 < m.training_stayed then
        ((m.training_total : ℚ) * COST_PER_HIRE +
          (m.training_total : ℚ) * TRAINING_COST_PER_PERSON) /
          (m.training_stayed : ℚ)
      else 0) ∧
    (m.control_cost_per_retained =
      if 0 < m.control_stayed then
        ((m.control_total : ℚ) * COST_PER_HIRE) / (m.control_stayed : ℚ)
      else 0) := by
  simp only [calculate_metrics] at h
  by_cases hg : (training_rows (filter_by_retention df t)).length = 0 ∨
      (control_rows (filter_by_retention df t)).length = 0
  · rw [if_pos hg] at h
    exact absurd h (by simp)
  · rw [if_neg hg] at h
    injection h with h2
    subst h2
    constructor <;> rfl

theorem cost_per_retained_zero_guard_witness :
    calculate_metrics demo_df 0 = some demo_metrics ∧
    (demo_metrics.training_cost_per_retained =
      if 0 < demo_metrics.training_stayed then
        ((demo_metrics.training_total : ℚ) * COST_PER_HIRE +
          (demo_metrics.training_total : ℚ) * TRAINING_COST_PER_PERSON) /
          (demo_metrics.training_stayed : ℚ)
      else 0) ∧
    (demo_metrics.control_cost_per_retained =
      if 0 < demo_metrics.control_stayed then
        ((demo_metrics.control_total : ℚ) * COST_PER_HIRE) /
          (demo_metrics.control_stayed : ℚ)
      else 0) :=
  ⟨calculate_metrics_demo,
   cost_per_retained_zero_guard demo_df 0 demo_metrics calculate_metrics_demo⟩

/-- C3: `percent_change` equals `difference / control_value * 100` when the
control value is nonzero and is exactly 0 when the control value is 0, for
any training value. -/
theorem percent_change_zero_guard (tv cv : ℚ) :
    (MetricComparison.mk tv cv).percent_change =
      if cv = 0 then 0
      else (MetricComparison.mk tv cv).difference / cv * 100 := by
  by_cases h : cv = 0 <;>
    simp [MetricComparison.percent_change, MetricComparison.difference, h]

/-- C4: raising the retention filter threshold never grows the retained
set (it stays a subset) nor either cohort group's size, and threshold 0
performs no filtering at all. -/
theorem filter_by_retention_monotone (df : List EmployeeRecord) (t1 t2 : ℚ)
    (h : t1 ≤ t2) :
    (∀ r, r ∈ filter_by_retention df t2 → r ∈ filter_by_retention df t1) ∧
    (training_rows (filter_by_retention df t2)).length ≤
      (training_rows (filter_by_retention df t1)).length ∧
    (control_rows (filter_by_retention df t2)).length ≤
      (control_rows (filter_by_retention df t1)).length ∧
    filter_by_retention df 0 = df := by
  refine ⟨fun r hr => (filter_by_retention_sublist df h).subset hr,
    ((filter_by_retention_sublist df h).filter _).length_le,
    ((filter_by_retention_sublist df h).filter _).length_le,
    if_neg (lt_irrefl 0)⟩

theorem filter_by_retention_monotone_witness :
    ((0 : ℚ) ≤ 12) ∧
    ((∀ r, r ∈ filter_by_retention demo_df 12 → r ∈ filter_by_retention demo_df 0) ∧
     (training_rows (filter_by_retention demo_df 12)).length ≤
       (training_rows (filter_by_retention demo_df 0)).length ∧
     (control_rows (filter_by_retention demo_df 12)).length ≤
       (control_rows (filter_by_retention demo_df 0)).length ∧
     filter_by_retention demo_df 0 = demo_df) :=
  ⟨by norm_num, filter_by_retention_monotone demo_df 0 12 (by norm_num)⟩

/-- C8: `calculate_metrics` is deterministic — it is a pure function of its
two arguments, so identical inputs yield identical results. -/
theorem calculate_metrics_deterministic (df1 df2 : List EmployeeRecord)
    (t1 t2 : ℚ) (hdf : df1 = df2) (ht : t1 = t2) :
    calculate_metrics df1 t1 = calculate_metrics df2 t2 := by
  rw [hdf, ht]

theorem calculate_metrics_deterministic_witness :
    calculate_metrics demo_df 0 = calculate_metrics demo_df 0 :=
  calculate_metrics_deterministic demo_df demo_df 0 0 rfl rfl

/-! ### Retention-rate bounds -/

theorem stayed_count_le_length (rows : List EmployeeRecord) :
    stayed_count rows ≤ rows.length :=
  rows.length_filter_le _

theorem rate_nonneg_le_hundred (rows : List EmployeeRecord)
    (hne : rows.length ≠ 0) :
    0 ≤ (stayed_count rows : ℚ) / (rows.length : ℚ) * 100 ∧
    (stayed_count rows : ℚ) / (rows.length : ℚ) * 100 ≤ 100 := by
  have hpos : (0 : ℚ) < (rows.length : ℚ) := by
    exact_mod_cast Nat.pos_of_ne_zero hne
  have hle : (stayed_count rows : ℚ) ≤ (rows.length : ℚ) := by
    exact_mod_cast stayed_count_le_length rows
  constructor
  · positivity
  · calc (stayed_count rows : ℚ) / (rows.length : ℚ) * 100
        ≤ 1 * 100 := by
          exact mul_le_mul_of_nonneg_right ((div_le_one hpos).mpr hle) (by norm_num)
      _ = 100 := one_mul 100

/-- C5: in every successful `calculate_metrics` result, each group's
retention rate equals `retained count / group size * 100` and lies in
`[0, 100]`. -/
theorem retention_rate_in_range (df : List EmployeeRecord) (t : ℚ)
    (m : Metrics) (h : calculate_metrics df t = some m) :
    (m.retention.training_value =
       (m.training_stayed : ℚ) / (m.training_total : ℚ) * 100 ∧
     0 ≤ m.retention.training_value ∧ m.retention.training_value ≤ 100) ∧
    (m.retention.control_value =
       (m.control_stayed : ℚ) / (m.control_total : ℚ) * 100 ∧
     0 ≤ m.retention.control_value ∧ m.retention.control_value ≤ 100) := by
  simp only [calculate_metrics] at h
  by_cases hg : (training_rows (filter_by_retention df t)).length = 0 ∨
      (control_rows (filter_by_retention df t)).length = 0
  · rw [if_pos hg] at h
    exact absurd h (by simp)
  · rw [if_neg hg] at h
    injection h with h2
    subst h2
    push_neg at hg
    exact ⟨⟨rfl, rate_nonneg_le_hundred _ hg.1⟩, ⟨rfl, rate_nonneg_le_hundred _ hg.2⟩⟩

theorem retention_rate_in_range_witness :
    calculate_metrics demo_df 0 = some demo_metrics ∧
    ((demo_metrics.retention.training_value =
        (demo_metrics.training_stayed : ℚ) / (demo_metrics.training_total : ℚ) * 100 ∧
      0 ≤ demo_metrics.retention.training_value ∧
      demo_metrics.retention.training_value ≤ 100) ∧
     (demo_metrics.retention.control_value =
        (demo_metrics.control_stayed : ℚ) / (demo_metrics.control_total : ℚ) * 100 ∧
      0 ≤ demo_metrics.retention.control_value ∧
      demo_metrics.retention.control_value ≤ 100)) :=
  ⟨calculate_metrics_demo,
   retention_rate_in_range demo_df 0 demo_metrics calculate_metrics_demo⟩

/-! ### Consistency of the stored `Reached_12mo` column -/

/-- C9: every record produced by `load_data` stores a `Reached_12mo` flag
exactly equal to `months_retained ≥ RETENTION_THRESHOLD`, with the boundary
value 12.0 counting as reached. -/
theorem reached_threshold_consistent (r : EmployeeRecord) (h : r ∈ load_data) :
    r.reached_12mo = decide (r.months_retained ≥ RETENTION_THRESHOLD) := by
  unfold load_data at h
  rw [List.mem_map] at h
  obtain ⟨x, -, rfl⟩ := h
  rfl

/-- C10: if every stored flag in `df` is consistent with its
`months_retained`, then for any filter threshold at or above the 12-month
retention threshold, a successful `calculate_metrics` run reports a
retention rate of exactly 100 for both groups, with every surviving record
retained. -/
theorem high_filter_full_retention (df : List EmployeeRecord)
    (hflag : ∀ r ∈ df,
      r.reached_12mo = decide (r.months_retained ≥ RETENTION_THRESHOLD))
    (t : ℚ) (ht : RETENTION_THRESHOLD ≤ t) (m : Metrics)
    (h : calculate_metrics df t = some m) :
    m.retention.training_value = 100 ∧ m.retention.control_value = 100 ∧
    m.training_stayed = m.training_total ∧
    m.control_stayed = m.control_total ∧
    0 < m.training_stayed ∧ 0 < m.control_stayed := by
  have ht0 : (0 : ℚ) < t :=
    lt_of_lt_of_le (by norm_num [RETENTION_THRESHOLD]) ht
  have hkey : ∀ r ∈ filter_by_retention df t, r.reached_12mo = true := by
    intro r hr
    rw [filter_by_retention, if_pos ht0, List.mem_filter] at hr
    have hm : t ≤ r.months_retained := of_decide_eq_true hr.2
    rw [hflag r hr.1]
    exact decide_eq_true (le_trans ht hm)
  have hstr : stayed_count (training_rows (filter_by_retention df t)) =
      (training_rows (filter_by_retention df t)).length := by
    unfold stayed_count
    exact congrArg List.length (List.filter_eq_self.mpr
      (fun r hr => hkey r (List.mem_of_mem_filter hr)))
  have hsco : stayed_count (control_rows (filter_by_retention df t)) =
      (control_rows (filter_by_retention df t)).length := by
    unfold stayed_count
    exact congrArg List.length (List.filter_eq_self.mpr
      (fun r hr => hkey r (List.mem_of_mem_filter hr)))
  simp only [calculate_metrics] at h
  by_cases hg : (training_rows (filter_by_retention df t)).length = 0 ∨
      (control_rows (filter_by_retention df t)).length = 0
  · rw [if_pos hg] at h
    exact absurd h (by simp)
  · rw [if_neg hg] at h
    injection h with h2
    subst h2
    push_neg at hg
    refine ⟨?_, ?_, hstr, hsco, ?_, ?_⟩
    · show (stayed_count (training_rows (filter_by_retention df t)) : ℚ) /
        ((training_rows (filter_by_retention df t)).length : ℚ) * 100 = 100
      rw [hstr, div_self (by exact_mod_cast hg.1), one_mul]
    · show (stayed_count (control_rows (filter_by_retention df t)) : ℚ) /
        ((control_rows (filter_by_retention df t)).length : ℚ) * 100 = 100
      rw [hsco, div_self (by exact_mod_cast hg.2), one_mul]
    · show 0 < stayed_count (training_rows (filter_by_retention df t))
      rw [hstr]
      exact Nat.pos_of_ne_zero hg.1
    · show 0 < stayed_count (control_rows (filter_by_retention df t))
      rw [hsco]
      exact Nat.pos_of_ne_zero hg.2

/-! ### Evaluation of `calculate_metrics` on the embedded dataset -/

set_option maxHeartbeats 2000000 in
theorem calculate_metrics_load_data :
    calculate_metrics load_data 0 = some load_data_metrics := by
  norm_num [calculate_metrics, filter_by_retention, training_rows, control_rows,
    stayed_count, mean_of, load_data, company_col, months_retained_col,
    productivity_rating_col, absenteeism_days_col, load_data_metrics,
    RETENTION_THRESHOLD, COST_PER_HIRE, TRAINING_COST_PER_PERSON,
    List.filter, List.zip, List.zipWith, List.replicate, List.sum_cons,
    decide_rat_ge_true, decide_rat_ge_false,
    beq_training_training, beq_noTraining_training,
    beq_training_noTraining, beq_noTraining_noTraining]

set_option maxHeartbeats 2000000 in
theorem calculate_metrics_load_data_12 :
    calculate_metrics load_data 12 = some threshold12_metrics := by
  norm_num [calculate_metrics, filter_by_retention, training_rows, control_rows,
    stayed_count, mean_of, load_data, company_col, months_retained_col,
    productivity_rating_col, absenteeism_days_col, threshold12_metrics,
    RETENTION_THRESHOLD, COST_PER_HIRE, TRAINING_COST_PER_PERSON,
    List.filter, List.zip, List.zipWith, List.replicate, List.sum_cons,
    decide_rat_ge_true, decide_rat_ge_false,
    beq_training_training, beq_noTraining_training,
    beq_training_noTraining, beq_noTraining_noTraining]

/-! ### The end-to-end and cost examples -/

/-- C6 counterexample: the embedded Training group's mean productivity is
4.35, not 4.2 as the claim describes the dataset (the control group's mean
is likewise 3.47, not 3.5). -/
theorem end_to_end_example_counterexample :
    (calculate_metrics load_data 0).map (fun m => m.productivity.training_value) =
      some (87/20) ∧ ((87/20 : ℚ) ≠ 4.2) := by
  rw [calculate_metrics_load_data]
  exact ⟨rfl, by norm_num⟩

/-- C6 (amended): on the embedded dataset — Training group with 21 of 30
records at `months_retained ≥ 12` and mean productivity 4.35, control group
with 9 of 30 and mean productivity 3.47 — `calculate_metrics` with
threshold 0 yields `retention.training_value = 70`,
`retention.control_value = 30` and `retention.difference = 40`. -/
theorem end_to_end_example :
    (calculate_metrics load_data 0).map (fun m =>
      (m.training_total, m.training_stayed, m.control_total, m.control_stayed,
       m.productivity.training_value, m.productivity.control_value,
       m.retention.training_value, m.retention.control_value,
       m.retention.difference)) =
      some (30, 21, 30, 9, 87/20, 347/100, 70, 30, 40) := by
  rw [calculate_metrics_load_data]
  norm_num [load_data_metrics, MetricComparison.difference]

/-- C7: with `COST_PER_HIRE = 1750` and `TRAINING_COST_PER_PERSON = 300`,
the embedded Training group (size 30, 21 retained) has total cost
`30 * 1750 + 30 * 300 = 61500`, the control group's total cost is
`30 * 1750 = 52500`, and the training cost-per-retained figure is
`61500 / 21`. -/
theorem cost_example :
    COST_PER_HIRE = 1750 ∧ TRAINING_COST_PER_PERSON = 300 ∧
    (calculate_metrics load_data 0).map (fun m =>
      ((m.training_total : ℚ) * COST_PER_HIRE +
        (m.training_total : ℚ) * TRAINING_COST_PER_PERSON,
       (m.control_total : ℚ) * COST_PER_HIRE,
       m.training_cost_per_retained)) =
      some (61500, 52500, 61500/21) := by
  refine ⟨rfl, rfl, ?_⟩
  rw [calculate_metrics_load_data]
  norm_num [load_data_metrics, COST_PER_HIRE, TRAINING_COST_PER_PERSON]

theorem reached_threshold_consistent_witness :
    (⟨"Training", 12.0, 4.7, 4, true⟩ : EmployeeRecord) ∈ load_data ∧
    EmployeeRecord.reached_12mo ⟨"Training", 12.0, 4.7, 4, true⟩ =
      decide (EmployeeRecord.months_retained ⟨"Training", 12.0, 4.7, 4, true⟩ ≥
        RETENTION_THRESHOLD) := by
  have hmem : (⟨"Training", 12.0, 4.7, 4, true⟩ : EmployeeRecord) ∈ load_data := by
    norm_num [load_data, company_col, months_retained_col,
      productivity_rating_col, absenteeism_days_col, List.zip, List.zipWith,
      List.replicate, List.mem_map, List.mem_cons, RETENTION_THRESHOLD,
      decide_rat_ge_true, decide_rat_ge_false]
  exact ⟨hmem, reached_threshold_consistent _ hmem⟩

theorem high_filter_full_retention_witness :
    (∀ r ∈ load_data,
      r.reached_12mo = decide (r.months_retained ≥ RETENTION_THRESHOLD)) ∧
    RETENTION_THRESHOLD ≤ 12 ∧
    calculate_metrics load_data 12 = some threshold12_metrics ∧
    (threshold12_metrics.retention.training_value = 100 ∧
     threshold12_metrics.retention.control_value = 100 ∧
     threshold12_metrics.training_stayed = threshold12_metrics.training_total ∧
     threshold12_metrics.control_stayed = threshold12_metrics.control_total ∧
     0 < threshold12_metrics.training_stayed ∧
     0 < threshold12_metrics.control_stayed) := by
  have hflag : ∀ r ∈ load_data,
      r.reached_12mo = decide (r.months_retained ≥ RETENTION_THRESHOLD) := by
    intro r hr
    unfold load_data at hr
    rw [List.mem_map] at hr
    obtain ⟨x, -, rfl⟩ := hr
    rfl
  exact ⟨hflag, by norm_num [RETENTION_THRESHOLD], calculate_metrics_load_data_12,
    high_filter_full_retention load_data hflag 12
      (by norm_num [RETENTION_THRESHOLD]) threshold12_metrics
      calculate_metrics_load_data_12⟩
